import Mathlib

/-!
Verification of the valuation core of the A-share investment agent.

The definitions below are a shallow embedding of the valuation engine:
`src/valuation/advanced_dcf.py`, `src/valuation/owner_earnings.py`,
`src/valuation/revenue_based_valuation.py`, and the combiner / classifier
logic of `src/agents/valuation_v2.py` and `src/agents/valuation.py`.
Python floats are modelled as exact rationals; the single irrational
operation (the `** 0.5` geometric mean in the divergence branch) is
modelled with `Real.sqrt`.  Logging, message construction and LLM glue are
not part of the model.
-/

set_option maxRecDepth 4000

/-- Trading signal emitted by a valuation run. -/
inductive Signal where
  | bullish
  | bearish
  | neutral
deriving DecidableEq, Repr

/-- Signal thresholds of the v2 (three-stage) paths:
`valuation_gap > 0.15` is bullish, `valuation_gap < -0.20` is bearish,
otherwise neutral (valuation_v2.py lines 495-500, 804-809, 948-953). -/
def v2Signal {α : Type} [LinearOrderedField α] (gap : α) : Signal :=
  if 15/100 < gap then Signal.bullish
  else if gap < -(20/100) then Signal.bearish
  else Signal.neutral

/-- Financial data extracted from the agent state
(`extract_financial_data_from_state`, valuation_v2.py lines 139-197).
All amounts are in base currency units. -/
structure FinData where
  earnings_growth : ℚ
  revenue_growth : ℚ
  pe_ratio : ℚ
  price_to_sales : ℚ
  net_margin : ℚ
  net_income : ℚ
  operating_revenue : ℚ
  operating_profit : ℚ
  depreciation : ℚ
  capex : ℚ
  free_cash_flow : ℚ
  working_capital : ℚ
  prev_working_capital : ℚ
deriving DecidableEq, Repr

/-- Growth industries (valuation_v2.py line 52). -/
def GROWTH_INDUSTRIES : List String := ["technology", "healthcare", "services"]

/-- Capex intensity used by classifier condition 6
(valuation_v2.py line 120): capex / revenue, 0 when revenue is
non-positive. -/
def capexToRevenue (d : FinData) : ℚ :=
  if 0 < d.operating_revenue then d.capex / d.operating_revenue else 0

/-- Rule-based growth-company classifier
(`identify_growth_company`, valuation_v2.py lines 55-136).
Returns the 1-based index of the first satisfied condition, or `none`.
The `market_cap` parameter is accepted but unused, as in the source. -/
def identify_growth_company (d : FinData) (industry_code : String) (market_cap : ℚ) :
    Option ℕ :=
  if d.net_income ≤ 0 ∧ 0 < d.operating_revenue ∧ 1/20 < d.revenue_growth then some 1
  else if 1/5 < d.revenue_growth then some 2
  else if 5 < d.price_to_sales ∧ d.net_margin < 1/20 ∧ 0 < d.operating_revenue then some 3
  else if 50 < d.pe_ratio ∧ d.net_margin < 1/10 ∧ 0 < d.net_income then some 4
  else if industry_code ∈ GROWTH_INDUSTRIES ∧ 3/20 < d.revenue_growth ∧
      d.net_margin < 1/10 then some 5
  else if 3/20 < capexToRevenue d ∧ 1/10 < d.revenue_growth then some 6
  else if 3/20 < d.revenue_growth ∧
      (d.earnings_growth < 0 ∨
        (0 < d.earnings_growth ∧ d.earnings_growth < d.revenue_growth * (1/2))) then some 7
  else none

/-- The seven classifier conditions, indexed 1-7, exactly as the source
tests them (used to state the first-match characterisation). -/
def growthCond (d : FinData) (industry_code : String) : ℕ → Prop
  | 1 => d.net_income ≤ 0 ∧ 0 < d.operating_revenue ∧ 1/20 < d.revenue_growth
  | 2 => 1/5 < d.revenue_growth
  | 3 => 5 < d.price_to_sales ∧ d.net_margin < 1/20 ∧ 0 < d.operating_revenue
  | 4 => 50 < d.pe_ratio ∧ d.net_margin < 1/10 ∧ 0 < d.net_income
  | 5 => industry_code ∈ GROWTH_INDUSTRIES ∧ 3/20 < d.revenue_growth ∧ d.net_margin < 1/10
  | 6 => 3/20 < capexToRevenue d ∧ 1/10 < d.revenue_growth
  | 7 => 3/20 < d.revenue_growth ∧
      (d.earnings_growth < 0 ∨
        (0 < d.earnings_growth ∧ d.earnings_growth < d.revenue_growth * (1/2)))
  | _ => False

/-- Routing of a v2 valuation run (valuation_v2.py lines 239-258). -/
inductive V2Route where
  | profitableGrowth
  | unprofitableGrowth
  | fallbackTraditional
  | mature
deriving DecidableEq, Repr

/-- Which execution path `valuation_agent_v2` takes for a given snapshot. -/
def routeV2 (d : FinData) (industry_code : String) (market_cap : ℚ) : V2Route :=
  let is_growth := (identify_growth_company d industry_code market_cap).isSome
  let is_profitable := 0 < d.net_income
  if is_growth ∧ is_profitable then V2Route.profitableGrowth
  else if is_growth ∧ ¬ is_profitable then V2Route.unprofitableGrowth
  else if ¬ is_profitable then V2Route.fallbackTraditional
  else V2Route.mature

/-! ## Three-stage discounting (advanced_dcf.py / owner_earnings.py)

Both engines run the same two loops: stage 1 compounds the base at the
high growth rate, stage 2 lets the growth rate decline linearly from the
transition rate toward the terminal rate (floored at the terminal rate),
each year discounted at `(1+rate)^year`. -/

/-- Stage-1 loop (advanced_dcf.py lines 227-240, owner_earnings.py 216-229):
remaining years, current absolute year index, current base value; returns
(final base, sum of present values). -/
def stage1Go (g r : ℚ) : ℕ → ℕ → ℚ → ℚ × ℚ
  | 0, _, base => (base, 0)
  | n + 1, year, base =>
    let base1 := base * (1 + g)
    let pv := base1 / (1 + r) ^ year
    let rest := stage1Go g r n (year + 1) base1
    (rest.1, pv + rest.2)

/-- Stage-2 loop (advanced_dcf.py lines 243-264, owner_earnings.py 232-254):
growth starts at the transition rate and each year is reduced by `d`, then
floored at the terminal rate `t`. -/
def stage2Go (r t d : ℚ) : ℕ → ℕ → ℚ → ℚ → ℚ × ℚ
  | 0, _, base, _ => (base, 0)
  | n + 1, year, base, cg =>
    let base1 := base * (1 + cg)
    let pv := base1 / (1 + r) ^ year
    let cg1 := max (cg - d) t
    let rest := stage2Go r t d n (year + 1) base1 cg1
    (rest.1, pv + rest.2)

/-- Result of `calculate_three_stage_dcf` (advanced_dcf.py lines 167-331).
The Python error dictionaries omit some keys; absent numeric keys are
modelled as `0` and the `wacc` field records the rate as far as the
computation got. -/
structure DcfResult where
  enterprise_value : ℚ
  equity_value : ℚ
  value_per_share : ℚ
  stage1_value : ℚ
  stage2_value : ℚ
  stage3_value : ℚ
  wacc : ℚ
  error : Option String
deriving DecidableEq, Repr

/-- Three-stage DCF engine (advanced_dcf.py lines 167-331).
A non-positive initial FCF short-circuits with an error; a WACC not above
the terminal growth rate is corrected to `terminal + 3%`; zero transition
years would raise ZeroDivisionError in the source, caught by the except
branch which returns zeros with the message of the exception. -/
def calculate_three_stage_dcf (initial_fcf high_growth_rate transition_growth_rate
    terminal_growth_rate wacc : ℚ) (high_growth_years transition_years : ℕ)
    (total_debt cash_and_equivalents shares_outstanding : ℚ) : DcfResult :=
  if initial_fcf ≤ 0 then
    { enterprise_value := 0, equity_value := 0, value_per_share := 0,
      stage1_value := 0, stage2_value := 0, stage3_value := 0,
      wacc := wacc, error := some "Invalid initial FCF" }
  else
    let wacc1 := if wacc ≤ terminal_growth_rate then terminal_growth_rate + 3/100 else wacc
    if transition_years = 0 then
      { enterprise_value := 0, equity_value := 0, value_per_share := 0,
        stage1_value := 0, stage2_value := 0, stage3_value := 0,
        wacc := wacc1, error := some "division by zero" }
    else
      let s1 := stage1Go high_growth_rate wacc1 high_growth_years 1 initial_fcf
      let decline := (transition_growth_rate - terminal_growth_rate) / (transition_years : ℚ)
      let s2 := stage2Go wacc1 terminal_growth_rate decline transition_years
        (high_growth_years + 1) s1.1 transition_growth_rate
      let terminal_fcf := s2.1 * (1 + terminal_growth_rate)
      let terminal_value := terminal_fcf / (wacc1 - terminal_growth_rate)
      let stage3_pv := terminal_value / (1 + wacc1) ^ (high_growth_years + transition_years)
      let ev := s1.2 + s2.2 + stage3_pv
      let eq_value := ev + cash_and_equivalents - total_debt
      { enterprise_value := ev, equity_value := eq_value,
        value_per_share := if 0 < shares_outstanding then eq_value / shares_outstanding else 0,
        stage1_value := s1.2, stage2_value := s2.2, stage3_value := stage3_pv,
        wacc := wacc1, error := none }

/-- Result of `calculate_three_stage_owner_earnings_value`
(owner_earnings.py lines 157-321), same conventions as `DcfResult`. -/
structure OwnerEarningsResult where
  intrinsic_value : ℚ
  intrinsic_value_with_margin : ℚ
  equity_value : ℚ
  stage1_value : ℚ
  stage2_value : ℚ
  stage3_value : ℚ
  margin_of_safety : ℚ
  required_return : ℚ
  error : Option String
deriving DecidableEq, Repr

/-- Three-stage owner-earnings engine (owner_earnings.py lines 157-321):
structurally the DCF engine with `required_return` as discount rate, a
`+5%` (not `+3%`) rate auto-correction, and a multiplicative margin of
safety applied at the end. -/
def calculate_three_stage_owner_earnings_value (initial_owner_earnings high_growth_rate
    transition_growth_rate terminal_growth_rate required_return : ℚ)
    (high_growth_years transition_years : ℕ)
    (margin_of_safety total_debt cash_and_equivalents : ℚ) : OwnerEarningsResult :=
  if initial_owner_earnings ≤ 0 then
    { intrinsic_value := 0, intrinsic_value_with_margin := 0, equity_value := 0,
      stage1_value := 0, stage2_value := 0, stage3_value := 0,
      margin_of_safety := margin_of_safety, required_return := required_return,
      error := some "Invalid initial owner earnings" }
  else
    let rr := if required_return ≤ terminal_growth_rate then terminal_growth_rate + 5/100
      else required_return
    if transition_years = 0 then
      { intrinsic_value := 0, intrinsic_value_with_margin := 0, equity_value := 0,
        stage1_value := 0, stage2_value := 0, stage3_value := 0,
        margin_of_safety := margin_of_safety, required_return := rr,
        error := some "division by zero" }
    else
      let s1 := stage1Go high_growth_rate rr high_growth_years 1 initial_owner_earnings
      let decline := (transition_growth_rate - terminal_growth_rate) / (transition_years : ℚ)
      let s2 := stage2Go rr terminal_growth_rate decline transition_years
        (high_growth_years + 1) s1.1 transition_growth_rate
      let terminal_oe := s2.1 * (1 + terminal_growth_rate)
      let terminal_value := terminal_oe / (rr - terminal_growth_rate)
      let stage3_pv := terminal_value / (1 + rr) ^ (high_growth_years + transition_years)
      let intrinsic := s1.2 + s2.2 + stage3_pv
      let with_margin := intrinsic * (1 - margin_of_safety)
      let eq_value := if 0 < total_debt ∨ 0 < cash_and_equivalents then
        with_margin + cash_and_equivalents - total_debt else with_margin
      { intrinsic_value := intrinsic, intrinsic_value_with_margin := with_margin,
        equity_value := eq_value, stage1_value := s1.2, stage2_value := s2.2,
        stage3_value := stage3_pv, margin_of_safety := margin_of_safety,
        required_return := rr, error := none }

/-- Owner-earnings base (owner_earnings.py lines 111-154):
net income + depreciation - maintenance capex - working-capital change. -/
def calculate_owner_earnings (net_income depreciation capex working_capital_change
    maintenance_capex_ratio : ℚ) : ℚ :=
  net_income + depreciation - capex * maintenance_capex_ratio - working_capital_change

/-- Owner-earnings fallback in both v2 paths (valuation_v2.py lines 383-386
and 705-706): a non-positive or abnormally small owner-earnings figure is
replaced by 80% of net income. -/
def adjustOwnerEarnings (owner_earnings net_income : ℚ) : ℚ :=
  if owner_earnings ≤ 0 ∨ owner_earnings < net_income * (1/10) then net_income * (8/10)
  else owner_earnings

/-- Working-capital smoothing ratio (valuation_v2.py lines 367 and 694). -/
def wcChangeRatio (industry_code : String) : ℚ :=
  if industry_code = "utilities" then 3/100 else 2/100

/-- Working-capital change smoothing on the mature-profitable path
(valuation_v2.py lines 358-372): an abnormal change is replaced by a
fraction of revenue, or by 0 when revenue is non-positive. -/
def smoothWCMain (working_capital prev_working_capital net_income operating_revenue : ℚ)
    (industry_code : String) : ℚ :=
  let change := working_capital - prev_working_capital
  if |net_income| * (1/2) < |change| then
    if 0 < operating_revenue then operating_revenue * wcChangeRatio industry_code
    else 0
  else change

/-- Working-capital change smoothing on the profitable-growth path
(valuation_v2.py lines 691-695): same trigger, but there is no zero
fallback, so with non-positive revenue the raw change is kept. -/
def smoothWCGrowth (working_capital prev_working_capital net_income operating_revenue : ℚ)
    (industry_code : String) : ℚ :=
  let change := working_capital - prev_working_capital
  if |net_income| * (1/2) < |change| then
    if 0 < operating_revenue then operating_revenue * wcChangeRatio industry_code
    else change
  else change

/-! ## Revenue-based valuation (revenue_based_valuation.py) -/

/-- Industry P/S multiples (revenue_based_valuation.py lines 19-30),
with the dictionary default of 2.5. -/
def INDUSTRY_PS_RATIOS (industry_code : String) : ℚ :=
  if industry_code = "technology" then 65/10
  else if industry_code = "healthcare" then 5
  else if industry_code = "consumer" then 25/10
  else if industry_code = "services" then 35/10
  else if industry_code = "manufacturing" then 2
  else if industry_code = "utilities" then 12/10
  else if industry_code = "finance" then 15/10
  else if industry_code = "real_estate" then 15/10
  else if industry_code = "heavy_industry" then 12/10
  else 25/10

/-- Growth-rate decay schedule of the future-profitability method for
already-profitable companies (revenue_based_valuation.py lines 122-130). -/
def decayedGrowthSchedule (revenue_growth_rate : ℚ) : ℚ :=
  if 30/100 < revenue_growth_rate then 20/100
  else if 20/100 < revenue_growth_rate then 15/100
  else min (revenue_growth_rate * (6/10)) (8/100)

/-- Effective net margin assumed for an already-profitable company
(revenue_based_valuation.py lines 132-139). -/
def effectiveMarginProfitable (current_net_margin revenue_growth_rate
    target_profit_margin : ℚ) : ℚ :=
  if current_net_margin < 5/100 ∧ 20/100 < revenue_growth_rate then
    max (current_net_margin * (3/2)) (target_profit_margin * (8/10))
  else min (current_net_margin * (12/10)) target_profit_margin

/-- Result of `calculate_revenue_based_valuation`
(revenue_based_valuation.py lines 33-222).  The error dictionary of the
source carries only `revenue_value` and `error`; the remaining fields are
modelled as zero there. -/
structure RevenueValuationResult where
  revenue_value : ℚ
  revenue_value_ps : ℚ
  revenue_value_dcf : ℚ
  ps_ratio : ℚ
  years_to_profitability : ℕ
  target_profit_margin : ℚ
  error : Option String
deriving DecidableEq, Repr

/-- Revenue-based valuation engine (revenue_based_valuation.py lines 33-222):
a P/S-multiple value and a future-profitability DCF value, combined with
weights that depend on profitability and growth. -/
def calculate_revenue_based_valuation (operating_revenue revenue_growth_rate : ℚ)
    (industry_code : String) (market_cap : ℚ) (years_to_profitability : ℕ)
    (target_profit_margin current_net_income current_net_margin : ℚ) :
    RevenueValuationResult :=
  if operating_revenue ≤ 0 then
    { revenue_value := 0, revenue_value_ps := 0, revenue_value_dcf := 0, ps_ratio := 0,
      years_to_profitability := 0, target_profit_margin := 0,
      error := some "Invalid revenue" }
  else
    let actual_ps_defined := 0 < market_cap ∧ 0 < operating_revenue
    let actual_ps := market_cap / operating_revenue
    let actual_in_range := actual_ps_defined ∧ 1/2 ≤ actual_ps ∧ actual_ps ≤ 20
    let ps_ratio := if actual_in_range then actual_ps else INDUSTRY_PS_RATIOS industry_code
    let rv_ps0 := operating_revenue * ps_ratio
    let revenue_value_ps :=
      if 0 < market_cap ∧ actual_in_range ∧
          0 < current_net_margin ∧ current_net_margin < 5/100 then
        if 20/100 < revenue_growth_rate then rv_ps0 * (95/100)
        else rv_ps0 * (if current_net_margin < 3/100 then 85/100 else 90/100)
      else rv_ps0
    let is_profitable := 0 < current_net_income ∧ 0 < current_net_margin
    let adjusted_growth_rate :=
      if is_profitable then decayedGrowthSchedule revenue_growth_rate
      else revenue_growth_rate * (1/2)
    let ytp := if is_profitable then 0 else years_to_profitability
    let future_net_income :=
      if is_profitable then
        operating_revenue *
          effectiveMarginProfitable current_net_margin revenue_growth_rate
            target_profit_margin
      else operating_revenue * (1 + revenue_growth_rate) ^ years_to_profitability *
        target_profit_margin
    let discount_rate : ℚ := 12/100
    let terminal_growth_rate : ℚ := 25/1000
    let future_value :=
      ((List.range 5).map (fun k =>
        future_net_income * (1 + adjusted_growth_rate) ^ (k + 1) /
          (1 + discount_rate) ^ (ytp + (k + 1)))).sum
    let terminal_net_income := future_net_income * (1 + adjusted_growth_rate) ^ 5
    let terminal_value := terminal_net_income * (1 + terminal_growth_rate) /
      (discount_rate - terminal_growth_rate)
    let terminal_pv := terminal_value / (1 + discount_rate) ^ (ytp + 5)
    let revenue_value_dcf := future_value + terminal_pv
    let revenue_value :=
      if is_profitable then
        if 20/100 < revenue_growth_rate then
          (1/2) * revenue_value_ps + (1/2) * revenue_value_dcf
        else (7/10) * revenue_value_ps + (3/10) * revenue_value_dcf
      else (revenue_value_ps + revenue_value_dcf) / 2
    { revenue_value := revenue_value, revenue_value_ps := revenue_value_ps,
      revenue_value_dcf := revenue_value_dcf, ps_ratio := ps_ratio,
      years_to_profitability := ytp, target_profit_margin := target_profit_margin,
      error := none }

/-! ## The v2 combiners and the legacy combiner -/

/-- Industries treated as cash-flow stable by the divergence handler
(valuation_v2.py line 451). -/
def stableCashFlowIndustries : List String := ["utilities", "finance", "consumer"]

/-- The combined valuation gap of the mature-profitable path.  The
geometric-mean branch is the only irrational value the run can produce,
so the gap is kept symbolic here and interpreted into `ℝ` below. -/
inductive MainGap where
  | q : ℚ → MainGap
  | geo : ℚ → ℚ → ℚ → MainGap
deriving DecidableEq, Repr

/-- Real value of a `MainGap`: the `geo dcf oe mc` constructor denotes
`((dcf * oe) ** 0.5 - mc) / mc` (valuation_v2.py lines 457-459). -/
noncomputable def MainGap.toReal : MainGap → ℝ
  | MainGap.q g => (g : ℝ)
  | MainGap.geo dcf oe mc => (Real.sqrt ((dcf : ℝ) * (oe : ℝ)) - (mc : ℝ)) / (mc : ℝ)

/-- Outcome of the mature-profitable combination step: either a gap and a
confidence are emitted, or the run falls back to the legacy agent. -/
inductive MainOutcome where
  | emitted : MainGap → ℚ → MainOutcome
  | fallback : MainOutcome
deriving DecidableEq, Repr

/-- Combination logic of the mature-profitable path
(valuation_v2.py lines 419-473 and 547-554): gap selection with
divergence handling, plus the confidence computation. -/
def v2CombineMain (dcf_value oe_value market_cap : ℚ) (industry_code : String) :
    MainOutcome :=
  if market_cap ≤ 0 then MainOutcome.emitted (MainGap.q 0) 0
  else
    let dcf_gap := if 0 < dcf_value then (dcf_value - market_cap) / market_cap else 0
    let oe_gap := if 0 < oe_value then (oe_value - market_cap) / market_cap else 0
    if 0 < dcf_value ∧ 0 < oe_value then
      let valuation_ratio := max dcf_value oe_value / min dcf_value oe_value
      let gap : MainGap :=
        if 3 < valuation_ratio then
          if industry_code ∈ stableCashFlowIndustries then MainGap.q dcf_gap
          else MainGap.geo dcf_value oe_value market_cap
        else MainGap.q ((6/10) * dcf_gap + (4/10) * oe_gap)
      MainOutcome.emitted gap ((6/10) * |dcf_gap| + (4/10) * |oe_gap|)
    else if 0 < dcf_value then MainOutcome.emitted (MainGap.q dcf_gap) |dcf_gap|
    else if 0 < oe_value then MainOutcome.emitted (MainGap.q oe_gap) |oe_gap|
    else MainOutcome.fallback

/-- The gap the mature-profitable path would report, as a real number
(`none` when the path falls back to the legacy agent). -/
noncomputable def v2MainGapR (dcf_value oe_value market_cap : ℚ) (industry_code : String) :
    Option ℝ :=
  match v2CombineMain dcf_value oe_value market_cap industry_code with
  | MainOutcome.emitted g _ => some g.toReal
  | MainOutcome.fallback => none

/-- The signal the mature-profitable path emits (valuation_v2.py lines
495-500), `none` when the path falls back. -/
noncomputable def v2MainSignal (dcf_value oe_value market_cap : ℚ)
    (industry_code : String) : Option Signal :=
  (v2MainGapR dcf_value oe_value market_cap industry_code).map v2Signal

/-- The confidence the mature-profitable path emits (valuation_v2.py
lines 547-554), `none` when the path falls back. -/
def v2MainConfidence (dcf_value oe_value market_cap : ℚ) (industry_code : String) :
    Option ℚ :=
  match v2CombineMain dcf_value oe_value market_cap industry_code with
  | MainOutcome.emitted _ c => some c
  | MainOutcome.fallback => none

/-- Outcome of the profitable-growth combination step.  The `fallback`
constructor covers both the explicit no-valid-method fallback and the
NameError the source hits when `market_cap <= 0` and `valid_methods` is
never assigned (the caller catches it and falls back). -/
inductive GrowthOutcome where
  | emitted : Signal → ℚ → ℚ → GrowthOutcome
  | fallback : GrowthOutcome
deriving DecidableEq, Repr

/-- Per-method weights of the profitable-growth combiner
(valuation_v2.py line 788), with the dictionary default of 0. -/
def growthWeight (method : String) : ℚ :=
  if method = "dcf" then 3/10
  else if method = "oe" then 3/10
  else if method = "revenue" then 2/5
  else 0

/-- Combination logic of the profitable-growth path (valuation_v2.py
lines 760-809 and 843-853): weighted average of the valid methods with
weights 0.3 / 0.3 / 0.4, no divergence handling. -/
def growthCombine (dcf_value oe_value revenue_value market_cap : ℚ) : GrowthOutcome :=
  if market_cap ≤ 0 then
    if 0 < dcf_value ∧ 0 < oe_value ∧ 0 < revenue_value then
      GrowthOutcome.emitted Signal.neutral 0 0
    else GrowthOutcome.fallback
  else
    let dcf_gap := if 0 < dcf_value then (dcf_value - market_cap) / market_cap else 0
    let oe_gap := if 0 < oe_value then (oe_value - market_cap) / market_cap else 0
    let revenue_gap := if 0 < revenue_value then (revenue_value - market_cap) / market_cap
      else 0
    let valid_methods : List (String × ℚ) :=
      (if 0 < dcf_value then [("dcf", dcf_gap)] else []) ++
      (if 0 < oe_value then [("oe", oe_gap)] else []) ++
      (if 0 < revenue_value then [("revenue", revenue_gap)] else [])
    if valid_methods = [] then GrowthOutcome.fallback
    else
      let total_weight := (valid_methods.map (fun m => growthWeight m.1)).sum
      let valuation_gap :=
        if 0 < total_weight then
          (valid_methods.map (fun m => growthWeight m.1 * m.2)).sum / total_weight
        else (valid_methods.map (fun m => m.2)).sum / (valid_methods.length : ℚ)
      let confidence :=
        if 0 < dcf_value ∧ 0 < oe_value ∧ 0 < revenue_value then
          (3/10) * |dcf_gap| + (3/10) * |oe_gap| + (2/5) * |revenue_gap|
        else if 0 < total_weight then
          (valid_methods.map (fun m => growthWeight m.1 * |m.2|)).sum / total_weight
        else (valid_methods.map (fun m => |m.2|)).sum / (valid_methods.length : ℚ)
      GrowthOutcome.emitted (v2Signal valuation_gap) valuation_gap confidence

/-- Emitted result of the unprofitable-growth path. -/
structure GrowthEmit where
  signal : Signal
  gap : ℚ
  confidence : ℚ
deriving DecidableEq, Repr

/-- The unprofitable-growth path `handle_growth_company_valuation`
(valuation_v2.py lines 882-1004): industry-dependent profitability
horizon and target margin, one revenue-based method, gap computed without
a validity guard on the revenue value. -/
def handle_growth_company_valuation (d : FinData) (industry_code : String)
    (market_cap : ℚ) : GrowthEmit :=
  let years_to_profitability : ℕ :=
    if industry_code = "technology" then 2
    else if industry_code = "healthcare" then 4 else 3
  let target_profit_margin : ℚ :=
    if industry_code = "technology" then 15/100
    else if industry_code = "healthcare" then 20/100 else 10/100
  let r := calculate_revenue_based_valuation d.operating_revenue d.revenue_growth
    industry_code market_cap years_to_profitability target_profit_margin
    d.net_income d.net_margin
  let revenue_value := r.revenue_value
  let revenue_gap := if 0 < market_cap then (revenue_value - market_cap) / market_cap else 0
  let signal := v2Signal revenue_gap
  let confidence := if 0 < market_cap then min |revenue_gap| d.revenue_growth
    else d.revenue_growth
  { signal := signal, gap := revenue_gap, confidence := confidence }

/-- Signal thresholds of the legacy agent (valuation.py lines 110-115):
bullish above 10%, bearish below -20%. -/
def legacySignal (gap : ℚ) : Signal :=
  if 1/10 < gap then Signal.bullish
  else if gap < -(20/100) then Signal.bearish
  else Signal.neutral

/-- Combination logic of the legacy agent (valuation.py lines 87-115):
plain average of the two gaps.  Returns (signal, valuation_gap). -/
def legacyCombine (dcf_value oe_value market_cap : ℚ) : Signal × ℚ :=
  if market_cap ≤ 0 then (Signal.neutral, 0)
  else
    let dcf_gap := (dcf_value - market_cap) / market_cap
    let oe_gap := (oe_value - market_cap) / market_cap
    let valuation_gap := (dcf_gap + oe_gap) / 2
    (legacySignal valuation_gap, valuation_gap)

/-! ## Helper lemmas -/

lemma v2Signal_bullish_iff {α : Type} [LinearOrderedField α] (gap : α) :
    v2Signal gap = Signal.bullish ↔ 15/100 < gap := by
  unfold v2Signal
  split_ifs with h1 h2 <;> simp [h1]

lemma v2Signal_bearish_iff {α : Type} [LinearOrderedField α] (gap : α) :
    v2Signal gap = Signal.bearish ↔ gap < -(20/100) := by
  unfold v2Signal
  split_ifs with h1 h2
  · refine iff_of_false (by simp) ?_
    intro h
    linarith
  · simp [h2]
  · simp [h2]

lemma dcf_invalid_fcf {initial_fcf high transition terminal wacc : ℚ} {N1 N2 : ℕ}
    {debt cash shares : ℚ} (h : initial_fcf ≤ 0) :
    calculate_three_stage_dcf initial_fcf high transition terminal wacc N1 N2
        debt cash shares =
      { enterprise_value := 0, equity_value := 0, value_per_share := 0,
        stage1_value := 0, stage2_value := 0, stage3_value := 0,
        wacc := wacc, error := some "Invalid initial FCF" } := by
  unfold calculate_three_stage_dcf
  rw [if_pos h]

lemma dcf_wacc_used {initial_fcf high transition terminal wacc : ℚ} {N1 N2 : ℕ}
    {debt cash shares : ℚ} (h : 0 < initial_fcf) :
    (calculate_three_stage_dcf initial_fcf high transition terminal wacc N1 N2
        debt cash shares).wacc =
      if wacc ≤ terminal then terminal + 3/100 else wacc := by
  unfold calculate_three_stage_dcf
  rw [if_neg (not_le.mpr h)]
  split <;> split <;> rfl

lemma oe_invalid {initial high transition terminal rr : ℚ} {N1 N2 : ℕ}
    {mos debt cash : ℚ} (h : initial ≤ 0) :
    calculate_three_stage_owner_earnings_value initial high transition terminal rr
        N1 N2 mos debt cash =
      { intrinsic_value := 0, intrinsic_value_with_margin := 0, equity_value := 0,
        stage1_value := 0, stage2_value := 0, stage3_value := 0,
        margin_of_safety := mos, required_return := rr,
        error := some "Invalid initial owner earnings" } := by
  unfold calculate_three_stage_owner_earnings_value
  rw [if_pos h]

lemma oe_required_return_used {initial high transition terminal rr : ℚ} {N1 N2 : ℕ}
    {mos debt cash : ℚ} (h : 0 < initial) :
    (calculate_three_stage_owner_earnings_value initial high transition terminal rr
        N1 N2 mos debt cash).required_return =
      if rr ≤ terminal then terminal + 5/100 else rr := by
  unfold calculate_three_stage_owner_earnings_value
  rw [if_neg (not_le.mpr h)]
  split <;> split <;> rfl

lemma oe_error_of_pos {initial high transition terminal rr : ℚ} {N1 N2 : ℕ}
    {mos debt cash : ℚ} (h : 0 < initial) :
    (calculate_three_stage_owner_earnings_value initial high transition terminal rr
        N1 N2 mos debt cash).error ≠ some "Invalid initial owner earnings" := by
  unfold calculate_three_stage_owner_earnings_value
  rw [if_neg (not_le.mpr h)]
  split <;> split <;> simp

lemma revenue_invalid {rev rg : ℚ} {ind : String} {mc : ℚ} {ytp : ℕ} {tpm ni nm : ℚ}
    (h : rev ≤ 0) :
    calculate_revenue_based_valuation rev rg ind mc ytp tpm ni nm =
      { revenue_value := 0, revenue_value_ps := 0, revenue_value_dcf := 0, ps_ratio := 0,
        years_to_profitability := 0, target_profit_margin := 0,
        error := some "Invalid revenue" } := by
  unfold calculate_revenue_based_valuation
  rw [if_pos h]

lemma v2Signal_neutral_iff {α : Type} [LinearOrderedField α] (gap : α) :
    v2Signal gap = Signal.neutral ↔ ¬ 15/100 < gap ∧ ¬ gap < -(20/100) := by
  unfold v2Signal
  split_ifs with h1 h2
  · simp [h1]
  · simp [h2]
  · simp [h1, h2]

/-! ## Claims C2, C9, C10 -/

/-- C2 (counterexample): the owner-earnings engine called with
`required_return = 0.02 <= terminal_growth_rate = 0.025` uses
`terminal + 5%` internally, not `terminal + 3%`, so the two engines do
not share the claimed auto-correction policy. -/
theorem claim_C2_counterexample :
    (1/50 : ℚ) ≤ 1/40 ∧
    (calculate_three_stage_owner_earnings_value 1 (1/20) (7/200) (1/40) (1/50)
        5 5 (1/4) 0 0).required_return = 1/40 + 5/100 ∧
    ((1/40 : ℚ) + 5/100 ≠ 1/40 + 3/100) := by
  refine ⟨by norm_num, ?_, by norm_num⟩
  rw [oe_required_return_used (by norm_num)]
  norm_num

/-- C2 (amended): when called with a positive base and a rate not above the
terminal growth rate, the DCF engine forces the internal rate to
`terminal + 3%` while the owner-earnings engine forces it to
`terminal + 5%`; in both engines the corrected rate exceeds the terminal
growth rate by at least 3 percentage points, so the Gordon-growth
denominator is strictly positive. -/
theorem claim_C2_amended :
    (∀ fcf hg tr t w : ℚ, ∀ N1 N2 : ℕ, ∀ debt cash sh : ℚ, 0 < fcf → w ≤ t →
      (calculate_three_stage_dcf fcf hg tr t w N1 N2 debt cash sh).wacc = t + 3/100 ∧
      t < (calculate_three_stage_dcf fcf hg tr t w N1 N2 debt cash sh).wacc ∧
      3/100 ≤ (calculate_three_stage_dcf fcf hg tr t w N1 N2 debt cash sh).wacc - t) ∧
    (∀ oe hg tr t rr : ℚ, ∀ N1 N2 : ℕ, ∀ mos debt cash : ℚ, 0 < oe → rr ≤ t →
      (calculate_three_stage_owner_earnings_value oe hg tr t rr N1 N2
          mos debt cash).required_return = t + 5/100 ∧
      t < (calculate_three_stage_owner_earnings_value oe hg tr t rr N1 N2
          mos debt cash).required_return ∧
      3/100 ≤ (calculate_three_stage_owner_earnings_value oe hg tr t rr N1 N2
          mos debt cash).required_return - t) := by
  constructor
  · intro fcf hg tr t w N1 N2 debt cash sh hf hw
    rw [dcf_wacc_used hf, if_pos hw]
    refine ⟨rfl, by linarith, by linarith⟩
  · intro oe hg tr t rr N1 N2 mos debt cash ho hr
    rw [oe_required_return_used ho, if_pos hr]
    refine ⟨rfl, by linarith, by linarith⟩

/-- C2 (witness): the amended statement applied to concrete engine calls
with rates below the terminal growth rate. -/
theorem claim_C2_witness :
    (0 < (1 : ℚ) ∧ (1/50 : ℚ) ≤ 1/40) ∧
    (calculate_three_stage_dcf 1 (1/20) (7/200) (1/40) (1/50) 5 5 0 0 0).wacc =
      1/40 + 3/100 ∧
    (calculate_three_stage_owner_earnings_value 1 (1/20) (7/200) (1/40) (1/50)
        5 5 (1/4) 0 0).required_return = 1/40 + 5/100 :=
  ⟨⟨by norm_num, by norm_num⟩,
    (claim_C2_amended.1 1 (1/20) (7/200) (1/40) (1/50) 5 5 0 0 0
      (by norm_num) (by norm_num)).1,
    (claim_C2_amended.2 1 (1/20) (7/200) (1/40) (1/50) 5 5 (1/4) 0 0
      (by norm_num) (by norm_num)).1⟩

/-- C9: in both v2 profitable paths, an owner-earnings figure that is
non-positive or below 10% of net income is replaced by 80% of net income;
for any company with positive net income the owner-earnings engine is
therefore invoked with a strictly positive base and its
`Invalid initial owner earnings` branch is never taken. -/
theorem claim_C9 :
    ∀ oe ni hg tr t rr : ℚ, ∀ N1 N2 : ℕ, ∀ mos debt cash : ℚ, 0 < ni →
      ((oe ≤ 0 ∨ oe < ni * (1/10)) → adjustOwnerEarnings oe ni = ni * (8/10)) ∧
      0 < adjustOwnerEarnings oe ni ∧
      (calculate_three_stage_owner_earnings_value (adjustOwnerEarnings oe ni)
          hg tr t rr N1 N2 mos debt cash).error ≠
        some "Invalid initial owner earnings" := by
  intro oe ni hg tr t rr N1 N2 mos debt cash hni
  have hpos : 0 < adjustOwnerEarnings oe ni := by
    unfold adjustOwnerEarnings
    split_ifs with h
    · positivity
    · push_neg at h
      exact h.1
  refine ⟨?_, hpos, oe_error_of_pos hpos⟩
  intro h
  unfold adjustOwnerEarnings
  rw [if_pos h]

/-- C9 (witness): a company with net income 10 and raw owner earnings -3
(replaced by 8) reaches the engine with a positive base. -/
theorem claim_C9_witness :
    (0 < (10 : ℚ)) ∧
    adjustOwnerEarnings (-3) 10 = 10 * (8/10) ∧
    0 < adjustOwnerEarnings (-3) 10 ∧
    (calculate_three_stage_owner_earnings_value (adjustOwnerEarnings (-3) 10)
        (1/20) (7/200) (1/40) (3/20) 5 5 (1/4) 0 0).error ≠
      some "Invalid initial owner earnings" :=
  ⟨by norm_num,
    (claim_C9 (-3) 10 (1/20) (7/200) (1/40) (3/20) 5 5 (1/4) 0 0 (by norm_num)).1
      (Or.inl (by norm_num)),
    (claim_C9 (-3) 10 (1/20) (7/200) (1/40) (3/20) 5 5 (1/4) 0 0 (by norm_num)).2.1,
    (claim_C9 (-3) 10 (1/20) (7/200) (1/40) (3/20) 5 5 (1/4) 0 0 (by norm_num)).2.2⟩

/-- C10 (counterexample): on the profitable-growth path, an abnormal
working-capital change with non-positive revenue is kept as-is rather
than replaced by 0, so the smoothed change can be negative. -/
theorem claim_C10_counterexample :
    |(1 : ℚ)| * (1/2) < |(-10 : ℚ) - 0| ∧
    smoothWCGrowth (-10) 0 1 0 "default" = -10 ∧
    ¬ (0 ≤ smoothWCGrowth (-10) 0 1 0 "default") := by
  refine ⟨by norm_num, ?_, ?_⟩ <;> norm_num [smoothWCGrowth]

/-- C10 (amended): whenever the working-capital change exceeds half of
the absolute net income, the mature-profitable path replaces it with
revenue times 3% (utilities) or 2% (other industries), or with 0 when
revenue is non-positive, so the replacement is never negative; the
profitable-growth path applies the same revenue-based replacement only
when revenue is positive and otherwise keeps the raw snapshot change. -/
theorem claim_C10_amended :
    ∀ wc prev ni rev : ℚ, ∀ ind : String, |ni| * (1/2) < |wc - prev| →
      (smoothWCMain wc prev ni rev ind =
        (if 0 < rev then rev * wcChangeRatio ind else 0)) ∧
      0 ≤ smoothWCMain wc prev ni rev ind ∧
      (0 < rev → smoothWCGrowth wc prev ni rev ind = rev * wcChangeRatio ind) ∧
      (rev ≤ 0 → smoothWCGrowth wc prev ni rev ind = wc - prev) := by
  intro wc prev ni rev ind htrig
  have hratio : 0 < wcChangeRatio ind := by
    unfold wcChangeRatio
    split_ifs <;> norm_num
  have hmain : smoothWCMain wc prev ni rev ind =
      (if 0 < rev then rev * wcChangeRatio ind else 0) := by
    unfold smoothWCMain
    rw [if_pos htrig]
  refine ⟨hmain, ?_, ?_, ?_⟩
  · rw [hmain]
    split_ifs with hrev
    · exact mul_nonneg hrev.le hratio.le
    · exact le_refl 0
  · intro hrev
    unfold smoothWCGrowth
    rw [if_pos htrig, if_pos hrev]
  · intro hrev
    unfold smoothWCGrowth
    rw [if_pos htrig, if_neg (not_lt.mpr hrev)]

/-- C10 (witness): a triggered replacement on both paths with positive
revenue, and the retained raw change on the growth path with zero
revenue. -/
theorem claim_C10_witness :
    (|(1 : ℚ)| * (1/2) < |(10 : ℚ) - 0|) ∧
    smoothWCMain 10 0 1 5 "utilities" = (if (0 : ℚ) < 5 then 5 * wcChangeRatio "utilities" else 0) ∧
    0 ≤ smoothWCMain 10 0 1 5 "utilities" ∧
    smoothWCGrowth 10 0 1 5 "utilities" = 5 * wcChangeRatio "utilities" :=
  ⟨by norm_num,
    (claim_C10_amended 10 0 1 5 "utilities" (by norm_num)).1,
    (claim_C10_amended 10 0 1 5 "utilities" (by norm_num)).2.1,
    (claim_C10_amended 10 0 1 5 "utilities" (by norm_num)).2.2.1 (by norm_num)⟩

/-! ## Claim C3 -/

/-- Snapshot refuting C3 as stated: revenue growth 16%, earnings growth
exactly 0, positive net income, everything else zero. -/
def finC3 : FinData :=
  { earnings_growth := 0, revenue_growth := 4/25, pe_ratio := 0, price_to_sales := 0,
    net_margin := 0, net_income := 1, operating_revenue := 0, operating_profit := 0,
    depreciation := 0, capex := 0, free_cash_flow := 0, working_capital := 0,
    prev_working_capital := 0 }

/-- C3 (counterexample): `finC3` satisfies the spec wording of condition 7
(revenue growth > 15% and earnings growth < 0.5 x revenue growth), yet the
classifier returns not-growth, because the source additionally requires
`earnings_growth > 0` in the second disjunct. -/
theorem claim_C3_counterexample :
    (3/20 < finC3.revenue_growth ∧
      (finC3.earnings_growth < 0 ∨
        finC3.earnings_growth < finC3.revenue_growth * (1/2))) ∧
    identify_growth_company finC3 "default" 0 = none := by
  refine ⟨⟨by norm_num [finC3], Or.inr (by norm_num [finC3])⟩, ?_⟩
  have hmem : ("default" : String) ∉ GROWTH_INDUSTRIES := by decide
  norm_num [identify_growth_company, finC3, hmem, capexToRevenue]

/-- C3 (amended): the classifier returns growth exactly when one of the
seven source conditions holds, the recorded reason index is the first
satisfied condition, and all earlier conditions fail; condition 7 requires
revenue growth > 15% and (earnings growth < 0, or earnings growth > 0 and
earnings growth < 0.5 x revenue growth). -/
theorem claim_C3_amended :
    ∀ (d : FinData) (ind : String) (mc : ℚ),
      ((identify_growth_company d ind mc).isSome ↔ ∃ i, growthCond d ind i) ∧
      (∀ i, identify_growth_company d ind mc = some i →
        growthCond d ind i ∧ ∀ j, j < i → ¬ growthCond d ind j) := by
  intro d ind mc
  have h8 : ∀ j, 8 ≤ j → ¬ growthCond d ind j := by
    intro j hj
    obtain ⟨n, rfl⟩ := Nat.exists_eq_add_of_le hj
    rw [Nat.add_comm]
    exact fun h => h
  unfold identify_growth_company
  split_ifs with h1 h2 h3 h4 h5 h6 h7
  · refine ⟨iff_of_true (by simp) ⟨1, h1⟩, ?_⟩
    intro i hi
    obtain rfl := Option.some.inj hi
    refine ⟨h1, ?_⟩
    intro j hj
    interval_cases j
    · exact fun h => h
  · refine ⟨iff_of_true (by simp) ⟨2, h2⟩, ?_⟩
    intro i hi
    obtain rfl := Option.some.inj hi
    refine ⟨h2, ?_⟩
    intro j hj
    interval_cases j
    · exact fun h => h
    · exact h1
  · refine ⟨iff_of_true (by simp) ⟨3, h3⟩, ?_⟩
    intro i hi
    obtain rfl := Option.some.inj hi
    refine ⟨h3, ?_⟩
    intro j hj
    interval_cases j
    · exact fun h => h
    · exact h1
    · exact h2
  · refine ⟨iff_of_true (by simp) ⟨4, h4⟩, ?_⟩
    intro i hi
    obtain rfl := Option.some.inj hi
    refine ⟨h4, ?_⟩
    intro j hj
    interval_cases j
    · exact fun h => h
    · exact h1
    · exact h2
    · exact h3
  · refine ⟨iff_of_true (by simp) ⟨5, h5⟩, ?_⟩
    intro i hi
    obtain rfl := Option.some.inj hi
    refine ⟨h5, ?_⟩
    intro j hj
    interval_cases j
    · exact fun h => h
    · exact h1
    · exact h2
    · exact h3
    · exact h4
  · refine ⟨iff_of_true (by simp) ⟨6, h6⟩, ?_⟩
    intro i hi
    obtain rfl := Option.some.inj hi
    refine ⟨h6, ?_⟩
    intro j hj
    interval_cases j
    · exact fun h => h
    · exact h1
    · exact h2
    · exact h3
    · exact h4
    · exact h5
  · refine ⟨iff_of_true (by simp) ⟨7, h7⟩, ?_⟩
    intro i hi
    obtain rfl := Option.some.inj hi
    refine ⟨h7, ?_⟩
    intro j hj
    interval_cases j
    · exact fun h => h
    · exact h1
    · exact h2
    · exact h3
    · exact h4
    · exact h5
    · exact h6
  · constructor
    · refine iff_of_false (by simp) ?_
      rintro ⟨i, hi⟩
      rcases Nat.lt_or_ge i 8 with hlt | hge
      · interval_cases i
        · exact hi
        · exact h1 hi
        · exact h2 hi
        · exact h3 hi
        · exact h4 hi
        · exact h5 hi
        · exact h6 hi
        · exact h7 hi
      · exact h8 i hge hi
    · intro i hi
      simp at hi

/-- Snapshot used to exercise C3: 25% revenue growth triggers condition 2. -/
def finC3wit : FinData :=
  { earnings_growth := 0, revenue_growth := 1/4, pe_ratio := 0, price_to_sales := 0,
    net_margin := 0, net_income := 1, operating_revenue := 0, operating_profit := 0,
    depreciation := 0, capex := 0, free_cash_flow := 0, working_capital := 0,
    prev_working_capital := 0 }

/-- C3 (witness): the amended statement at a snapshot classified growth by
condition 2, with condition 1 failing. -/
theorem claim_C3_witness :
    identify_growth_company finC3wit "default" 0 = some 2 ∧
    growthCond finC3wit "default" 2 ∧ ¬ growthCond finC3wit "default" 1 := by
  have hid : identify_growth_company finC3wit "default" 0 = some 2 := by
    norm_num [identify_growth_company, finC3wit]
  have h := (claim_C3_amended finC3wit "default" 0).2 2 hid
  exact ⟨hid, h.1, h.2 1 (by norm_num)⟩

/-! ## Claim C4 -/

lemma legacySignal_bullish_iff (gap : ℚ) :
    legacySignal gap = Signal.bullish ↔ 1/10 < gap := by
  unfold legacySignal
  split_ifs with h1 h2
  · exact iff_of_true rfl h1
  · exact iff_of_false (by simp) h1
  · exact iff_of_false (by simp) h1

lemma legacySignal_bearish_iff (gap : ℚ) :
    legacySignal gap = Signal.bearish ↔ gap < -(20/100) := by
  unfold legacySignal
  split_ifs with h1 h2
  · refine iff_of_false (by simp) ?_
    intro h
    linarith
  · exact iff_of_true rfl h2
  · exact iff_of_false (by simp) h2

lemma growthWeight_dcf : growthWeight "dcf" = 3/10 := by
  unfold growthWeight
  rw [if_pos rfl]

lemma growthWeight_oe : growthWeight "oe" = 3/10 := by
  unfold growthWeight
  rw [if_neg (by decide), if_pos rfl]

lemma growthWeight_revenue : growthWeight "revenue" = 2/5 := by
  unfold growthWeight
  rw [if_neg (by decide), if_neg (by decide), if_pos rfl]

/-- C4: every v2 (three-stage) path emits bullish exactly when its
combined gap exceeds 0.15 and bearish exactly when it is below -0.20,
while the legacy fallback path uses the looser 0.10 bullish threshold
with the same -0.20 bearish threshold. -/
theorem claim_C4 :
    (∀ dcf oe mc : ℚ, ∀ ind : String, ∀ g : ℝ, ∀ s : Signal,
      v2MainGapR dcf oe mc ind = some g → v2MainSignal dcf oe mc ind = some s →
      ((s = Signal.bullish ↔ 15/100 < g) ∧ (s = Signal.bearish ↔ g < -(20/100)))) ∧
    (∀ dcf oe rev mc : ℚ, ∀ s : Signal, ∀ g c : ℚ,
      growthCombine dcf oe rev mc = GrowthOutcome.emitted s g c →
      ((s = Signal.bullish ↔ 15/100 < g) ∧ (s = Signal.bearish ↔ g < -(20/100)))) ∧
    (∀ d : FinData, ∀ ind : String, ∀ mc : ℚ,
      (((handle_growth_company_valuation d ind mc).signal = Signal.bullish ↔
        15/100 < (handle_growth_company_valuation d ind mc).gap) ∧
       ((handle_growth_company_valuation d ind mc).signal = Signal.bearish ↔
        (handle_growth_company_valuation d ind mc).gap < -(20/100)))) ∧
    (∀ dcf oe mc : ℚ,
      (((legacyCombine dcf oe mc).1 = Signal.bullish ↔
        1/10 < (legacyCombine dcf oe mc).2) ∧
       ((legacyCombine dcf oe mc).1 = Signal.bearish ↔
        (legacyCombine dcf oe mc).2 < -(20/100)))) := by
  refine ⟨?_, ?_, ?_, ?_⟩
  · intro dcf oe mc ind g s hg hs
    unfold v2MainGapR at hg
    unfold v2MainSignal v2MainGapR at hs
    cases hcomb : v2CombineMain dcf oe mc ind with
    | emitted gp c =>
      rw [hcomb] at hg hs
      simp only [Option.map_some'] at hg hs
      obtain rfl := Option.some.inj hg
      obtain rfl := Option.some.inj hs
      exact ⟨v2Signal_bullish_iff _, v2Signal_bearish_iff _⟩
    | fallback =>
      rw [hcomb] at hg
      simp at hg
  · intro dcf oe rev mc s g c h
    by_cases h1 : mc ≤ 0
    · simp only [growthCombine, if_pos h1] at h
      split_ifs at h
      all_goals
        first
        | (obtain ⟨rfl, rfl, rfl⟩ := GrowthOutcome.emitted.inj h
           exact ⟨iff_of_false (by simp) (by norm_num),
             iff_of_false (by simp) (by norm_num)⟩)
        | simp at h
    · simp only [growthCombine, if_neg h1] at h
      split_ifs at h <;>
        first
        | (obtain ⟨rfl, rfl, rfl⟩ := GrowthOutcome.emitted.inj h
           exact ⟨v2Signal_bullish_iff _, v2Signal_bearish_iff _⟩)
        | simp at h
  · intro d ind mc
    have hsg : (handle_growth_company_valuation d ind mc).signal =
        v2Signal (handle_growth_company_valuation d ind mc).gap := rfl
    rw [hsg]
    exact ⟨v2Signal_bullish_iff _, v2Signal_bearish_iff _⟩
  · intro dcf oe mc
    by_cases h1 : mc ≤ 0
    · simp only [legacyCombine, if_pos h1]
      constructor
      · exact iff_of_false (by simp) (by norm_num)
      · exact iff_of_false (by simp) (by norm_num)
    · simp only [legacyCombine, if_neg h1]
      exact ⟨legacySignal_bullish_iff _, legacySignal_bearish_iff _⟩

/-- C4 (witness): the threshold characterisation exercised on a
mature-path run emitting gap 1 (bullish) and a growth-path run emitting
gap 1 (bullish). -/
theorem claim_C4_witness :
    ((Signal.bullish = Signal.bullish ↔ (15/100 : ℝ) < ((1 : ℚ) : ℝ)) ∧
     (Signal.bullish = Signal.bearish ↔ ((1 : ℚ) : ℝ) < -(20/100))) ∧
    ((Signal.bullish = Signal.bullish ↔ (15/100 : ℚ) < 1) ∧
     (Signal.bullish = Signal.bearish ↔ (1 : ℚ) < -(20/100))) := by
  constructor
  · refine claim_C4.1 2 2 1 "default" ((1 : ℚ) : ℝ) Signal.bullish ?_ ?_
    · norm_num [v2MainGapR, v2CombineMain, MainGap.toReal]
    · norm_num [v2MainSignal, v2MainGapR, v2CombineMain, MainGap.toReal, v2Signal]
  · refine claim_C4.2.1 2 2 2 1 Signal.bullish 1 1 ?_
    norm_num [growthCombine, growthWeight_dcf, growthWeight_oe, growthWeight_revenue,
      v2Signal]
    intro hh
    exact absurd hh (by simp)

/-! ## Claim C5 -/

/-- Snapshot refuting the all-methods-invalid part of C5: an unprofitable
growth company (25% revenue growth, negative net income) with zero
revenue, so its only valuation method is invalid. -/
def finC5 : FinData :=
  { earnings_growth := 0, revenue_growth := 1/4, pe_ratio := 0, price_to_sales := 0,
    net_margin := 0, net_income := -1, operating_revenue := 0, operating_profit := 0,
    depreciation := 0, capex := 0, free_cash_flow := 0, working_capital := 0,
    prev_working_capital := 0 }

/-- C5 (counterexample): `finC5` routes to the unprofitable-growth path;
its single method is invalid (`Invalid revenue`), yet with positive market
cap the run emits a gap of -1 and signal bearish with confidence 1/4 —
not neutral with confidence 0. -/
theorem claim_C5_counterexample :
    routeV2 finC5 "default" 1 = V2Route.unprofitableGrowth ∧
    (calculate_revenue_based_valuation finC5.operating_revenue finC5.revenue_growth
        "default" 1 3 (1/10) finC5.net_income finC5.net_margin).error =
      some "Invalid revenue" ∧
    handle_growth_company_valuation finC5 "default" 1 =
      { signal := Signal.bearish, gap := -1, confidence := 1/4 } ∧
    Signal.bearish ≠ Signal.neutral ∧ ¬ ((1/4 : ℚ) = 0) := by
  refine ⟨?_, ?_, ?_, by simp, by norm_num⟩
  · norm_num [routeV2, identify_growth_company, finC5]
  · rw [revenue_invalid (by norm_num [finC5])]
  · have hr := @revenue_invalid finC5.operating_revenue finC5.revenue_growth
      "default" 1
      (if ("default" : String) = "technology" then 2
        else if ("default" : String) = "healthcare" then 4 else 3)
      (if ("default" : String) = "technology" then 15/100
        else if ("default" : String) = "healthcare" then 20/100 else 10/100)
      finC5.net_income finC5.net_margin
      (by norm_num [finC5])
    simp only [handle_growth_company_valuation, hr]
    norm_num [finC5, v2Signal, min_def]

/-- C5 (amended): invalid inputs are method-local and non-fatal — the DCF
engine on non-positive FCF and the revenue engine on non-positive revenue
report value 0 with their respective error strings, a run with
non-positive market cap emits neutral with zero gap on both growth paths,
and the two-method path with both methods invalid delegates to the legacy
agent; but on the unprofitable-growth path, when the only method is
invalid and market cap is positive, the emitted gap is -1 and the signal
is bearish rather than neutral with confidence 0. -/
theorem claim_C5_amended :
    (∀ fcf hg tr t w : ℚ, ∀ N1 N2 : ℕ, ∀ debt cash sh : ℚ, fcf ≤ 0 →
      (calculate_three_stage_dcf fcf hg tr t w N1 N2 debt cash sh).enterprise_value = 0 ∧
      (calculate_three_stage_dcf fcf hg tr t w N1 N2 debt cash sh).error =
        some "Invalid initial FCF") ∧
    (∀ rev rg : ℚ, ∀ ind : String, ∀ mc : ℚ, ∀ ytp : ℕ, ∀ tpm ni nm : ℚ, rev ≤ 0 →
      (calculate_revenue_based_valuation rev rg ind mc ytp tpm ni nm).revenue_value = 0 ∧
      (calculate_revenue_based_valuation rev rg ind mc ytp tpm ni nm).error =
        some "Invalid revenue") ∧
    (∀ dcf oe mc : ℚ, ∀ ind : String, mc ≤ 0 →
      v2CombineMain dcf oe mc ind = MainOutcome.emitted (MainGap.q 0) 0 ∧
      v2MainSignal dcf oe mc ind = some Signal.neutral) ∧
    (∀ d : FinData, ∀ ind : String, ∀ mc : ℚ, mc ≤ 0 →
      (handle_growth_company_valuation d ind mc).gap = 0 ∧
      (handle_growth_company_valuation d ind mc).signal = Signal.neutral) ∧
    (∀ dcf oe mc : ℚ, ∀ ind : String, 0 < mc → dcf ≤ 0 → oe ≤ 0 →
      v2CombineMain dcf oe mc ind = MainOutcome.fallback) ∧
    (∀ d : FinData, ∀ ind : String, ∀ mc : ℚ, 0 < mc → d.operating_revenue ≤ 0 →
      (handle_growth_company_valuation d ind mc).gap = -1 ∧
      (handle_growth_company_valuation d ind mc).signal = Signal.bearish) := by
  refine ⟨?_, ?_, ?_, ?_, ?_, ?_⟩
  · intro fcf hg tr t w N1 N2 debt cash sh h
    rw [dcf_invalid_fcf h]
    exact ⟨rfl, rfl⟩
  · intro rev rg ind mc ytp tpm ni nm h
    rw [revenue_invalid h]
    exact ⟨rfl, rfl⟩
  · intro dcf oe mc ind h
    have hcomb : v2CombineMain dcf oe mc ind = MainOutcome.emitted (MainGap.q 0) 0 := by
      unfold v2CombineMain
      rw [if_pos h]
    refine ⟨hcomb, ?_⟩
    unfold v2MainSignal v2MainGapR
    rw [hcomb]
    simp only [Option.map_some']
    have : v2Signal ((MainGap.q 0).toReal) = Signal.neutral := by
      norm_num [MainGap.toReal, v2Signal]
    rw [this]
  · intro d ind mc h
    have hgap : (handle_growth_company_valuation d ind mc).gap = 0 := by
      unfold handle_growth_company_valuation
      simp only [if_neg (not_lt.mpr h)]
    refine ⟨hgap, ?_⟩
    have hsg : (handle_growth_company_valuation d ind mc).signal =
        v2Signal (handle_growth_company_valuation d ind mc).gap := rfl
    rw [hsg, hgap]
    norm_num [v2Signal]
  · intro dcf oe mc ind hmc hdcf hoe
    unfold v2CombineMain
    rw [if_neg (not_le.mpr hmc), if_neg (by rintro ⟨h, _⟩; exact absurd h (not_lt.mpr hdcf)),
      if_neg (not_lt.mpr hdcf), if_neg (not_lt.mpr hoe)]
  · intro d ind mc hmc hrev
    have hr := @revenue_invalid d.operating_revenue d.revenue_growth ind mc
      (if ind = "technology" then 2 else if ind = "healthcare" then 4 else 3)
      (if ind = "technology" then 15/100 else if ind = "healthcare" then 20/100
        else 10/100)
      d.net_income d.net_margin hrev
    have hgap : (handle_growth_company_valuation d ind mc).gap = -1 := by
      simp only [handle_growth_company_valuation, hr, if_pos hmc]
      rw [div_eq_iff (ne_of_gt hmc)]
      ring
    refine ⟨hgap, ?_⟩
    have hsg : (handle_growth_company_valuation d ind mc).signal =
        v2Signal (handle_growth_company_valuation d ind mc).gap := rfl
    rw [hsg, hgap]
    norm_num [v2Signal]

/-- C5 (witness): the amended statement at concrete invalid inputs —
zero FCF, zero revenue, zero market cap, and an invalid-method growth
run with positive market cap. -/
theorem claim_C5_witness :
    ((calculate_three_stage_dcf 0 (1/10) (7/100) (1/40) (1/10) 5 5 0 0 0).enterprise_value
        = 0 ∧
      (calculate_three_stage_dcf 0 (1/10) (7/100) (1/40) (1/10) 5 5 0 0 0).error =
        some "Invalid initial FCF") ∧
    ((calculate_revenue_based_valuation 0 (1/4) "default" 1 3 (1/10) 0 0).revenue_value
        = 0 ∧
      (calculate_revenue_based_valuation 0 (1/4) "default" 1 3 (1/10) 0 0).error =
        some "Invalid revenue") ∧
    (v2CombineMain 5 5 0 "default" = MainOutcome.emitted (MainGap.q 0) 0 ∧
      v2MainSignal 5 5 0 "default" = some Signal.neutral) ∧
    v2CombineMain 0 0 1 "default" = MainOutcome.fallback ∧
    ((handle_growth_company_valuation finC5 "default" 1).gap = -1 ∧
      (handle_growth_company_valuation finC5 "default" 1).signal = Signal.bearish) :=
  ⟨claim_C5_amended.1 0 (1/10) (7/100) (1/40) (1/10) 5 5 0 0 0 (le_refl 0),
    claim_C5_amended.2.1 0 (1/4) "default" 1 3 (1/10) 0 0 (le_refl 0),
    claim_C5_amended.2.2.1 5 5 0 "default" (le_refl 0),
    claim_C5_amended.2.2.2.2.1 0 0 1 "default" (by norm_num) (le_refl 0) (le_refl 0),
    claim_C5_amended.2.2.2.2.2 finC5 "default" 1 (by norm_num) (by norm_num [finC5])⟩

/-! ## Claim C6 -/

lemma growthWeight_nonneg (m : String) : 0 ≤ growthWeight m := by
  unfold growthWeight
  split_ifs <;> norm_num

/-- C6 (counterexample): with both methods valued at ten times market cap,
the mature-profitable combiner emits confidence 9, outside [0,1]. -/
theorem claim_C6_counterexample :
    v2CombineMain 10 10 1 "default" = MainOutcome.emitted (MainGap.q 9) 9 ∧
    v2MainConfidence 10 10 1 "default" = some 9 ∧ ¬ ((9 : ℚ) ≤ 1) := by
  have hcomb : v2CombineMain 10 10 1 "default" =
      MainOutcome.emitted (MainGap.q 9) 9 := by
    norm_num [v2CombineMain]
  refine ⟨hcomb, ?_, by norm_num⟩
  unfold v2MainConfidence
  rw [hcomb]

set_option maxHeartbeats 1600000 in
/-- C6 (amended): the confidence emitted by the mature-profitable and
profitable-growth combiners is always non-negative (it is a weighted
average of absolute per-method gaps), but it is not bounded by 1. -/
theorem claim_C6_amended :
    (∀ dcf oe mc : ℚ, ∀ ind : String, ∀ g : MainGap, ∀ c : ℚ,
      v2CombineMain dcf oe mc ind = MainOutcome.emitted g c → 0 ≤ c) ∧
    (∀ dcf oe rev mc : ℚ, ∀ s : Signal, ∀ g c : ℚ,
      growthCombine dcf oe rev mc = GrowthOutcome.emitted s g c → 0 ≤ c) := by
  constructor
  · intro dcf oe mc ind g c h
    by_cases h1 : mc ≤ 0
    · simp only [v2CombineMain, if_pos h1] at h
      obtain ⟨-, rfl⟩ := MainOutcome.emitted.inj h
      exact le_refl 0
    · simp only [v2CombineMain, if_neg h1] at h
      split_ifs at h <;>
        first
        | (obtain ⟨-, rfl⟩ := MainOutcome.emitted.inj h
           positivity)
        | simp at h
  · intro dcf oe rev mc s g c h
    by_cases h1 : mc ≤ 0
    · simp only [growthCombine, if_pos h1] at h
      split_ifs at h
      all_goals
        first
        | (obtain ⟨-, -, rfl⟩ := GrowthOutcome.emitted.inj h
           exact le_refl 0)
        | simp at h
    · simp only [growthCombine, if_neg h1] at h
      split_ifs at h <;>
        first
        | (obtain ⟨-, -, rfl⟩ := GrowthOutcome.emitted.inj h
           first
           | (refine div_nonneg (List.sum_nonneg ?_) (List.sum_nonneg ?_)
              · intro x hx
                simp only [List.mem_map] at hx
                obtain ⟨m, hm, rfl⟩ := hx
                exact mul_nonneg (growthWeight_nonneg m.1) (abs_nonneg m.2)
              · intro x hx
                simp only [List.mem_map] at hx
                obtain ⟨m, hm, rfl⟩ := hx
                exact growthWeight_nonneg m.1)
           | (refine div_nonneg (List.sum_nonneg ?_) (Nat.cast_nonneg _)
              intro x hx
              simp only [List.mem_map] at hx
              obtain ⟨m, hm, rfl⟩ := hx
              exact abs_nonneg m.2)
           | positivity)
        | simp at h

/-- C6 (witness): non-negative confidence at a concrete mature-path run
and a concrete growth-path run. -/
theorem claim_C6_witness :
    (0 : ℚ) ≤ 9 ∧ (0 : ℚ) ≤ 1 :=
  ⟨claim_C6_amended.1 10 10 1 "default" (MainGap.q 9) 9 (by norm_num [v2CombineMain]),
    claim_C6_amended.2 2 2 2 1 Signal.bullish 1 1 (by
      norm_num [growthCombine, growthWeight_dcf, growthWeight_oe, growthWeight_revenue,
        v2Signal]
      intro hh
      exact absurd hh (by simp))⟩

/-! ## Claim C1 -/

/-- C1 (counterexample): a profitable-growth run whose DCF and
owner-earnings values diverge by a factor 8 (> 3) in a
non-cash-flow-stable industry.  The profitable-growth combiner has no
divergence handling: it emits the 0.3/0.3-weighted gap 7/2, which is
neither the geometric-mean gap sqrt(8*1) - 1 nor the DCF gap 7. -/
theorem claim_C1_counterexample :
    0 < (1 : ℚ) ∧ 0 < (8 : ℚ) ∧ 0 < (1 : ℚ) ∧
    3 < max (8 : ℚ) 1 / min (8 : ℚ) 1 ∧
    "technology" ∉ stableCashFlowIndustries ∧
    growthCombine 8 1 0 1 = GrowthOutcome.emitted Signal.bullish (7/2) (7/2) ∧
    ((7/2 : ℚ) : ℝ) ≠ (Real.sqrt ((8 : ℝ) * 1) - 1) / 1 ∧
    (7/2 : ℚ) ≠ ((8 : ℚ) - 1) / 1 := by
  refine ⟨by norm_num, by norm_num, by norm_num, by norm_num, by decide, ?_, ?_, by norm_num⟩
  · norm_num [growthCombine, growthWeight_dcf, growthWeight_oe, v2Signal]
    intro hh
    exact absurd hh (by simp)
  · push_cast
    rw [mul_one, div_one]
    intro h
    have h2 : Real.sqrt 8 = 9/2 := by linarith
    have h3 := Real.sq_sqrt (show (0 : ℝ) ≤ 8 by norm_num)
    rw [h2] at h3
    norm_num at h3

/-- C1 (amended): on the mature-profitable (two-method) path, whenever
market cap and both method values are positive and the values diverge by
a factor greater than 3, the combined gap is the DCF gap alone for the
cash-flow-stable industries (utilities/finance/consumer) and otherwise
the gap of the geometric mean sqrt(dcf*oe); the profitable-growth
three-method path has no such divergence handling and always uses its
0.3/0.3/0.4 weighted average. -/
theorem claim_C1_amended :
    ∀ dcf oe mc : ℚ, ∀ ind : String,
      0 < mc → 0 < dcf → 0 < oe → 3 < max dcf oe / min dcf oe →
      v2MainGapR dcf oe mc ind =
        some (if ind ∈ stableCashFlowIndustries then
            ((dcf : ℝ) - (mc : ℝ)) / (mc : ℝ)
          else (Real.sqrt ((dcf : ℝ) * (oe : ℝ)) - (mc : ℝ)) / (mc : ℝ)) := by
  intro dcf oe mc ind hmc hdcf hoe hdiv
  unfold v2MainGapR
  have hcomb : v2CombineMain dcf oe mc ind =
      MainOutcome.emitted
        (if ind ∈ stableCashFlowIndustries then MainGap.q ((dcf - mc) / mc)
          else MainGap.geo dcf oe mc)
        ((6/10) * |(dcf - mc) / mc| + (4/10) * |(oe - mc) / mc|) := by
    unfold v2CombineMain
    simp only [if_neg (not_le.mpr hmc), if_pos hdcf, if_pos hoe,
      if_pos (And.intro hdcf hoe), if_pos hdiv]
  rw [hcomb]
  by_cases hstable : ind ∈ stableCashFlowIndustries
  · rw [if_pos hstable, if_pos hstable]
    simp only [MainGap.toReal]
    push_cast
    rfl
  · rw [if_neg hstable, if_neg hstable]
    simp only [MainGap.toReal]

/-- C1 (witness): the amended statement at a divergent stable-industry
run (utilities, DCF 8, owner earnings 1, market cap 1). -/
theorem claim_C1_witness :
    0 < (1 : ℚ) ∧ 0 < (8 : ℚ) ∧ 0 < (1 : ℚ) ∧
    3 < max (8 : ℚ) 1 / min (8 : ℚ) 1 ∧
    v2MainGapR 8 1 1 "utilities" =
      some (if "utilities" ∈ stableCashFlowIndustries then
          (((8 : ℚ) : ℝ) - ((1 : ℚ) : ℝ)) / ((1 : ℚ) : ℝ)
        else (Real.sqrt (((8 : ℚ) : ℝ) * ((1 : ℚ) : ℝ)) - ((1 : ℚ) : ℝ)) / ((1 : ℚ) : ℝ)) :=
  ⟨by norm_num, by norm_num, by norm_num, by norm_num,
    claim_C1_amended 8 1 1 "utilities" (by norm_num) (by norm_num) (by norm_num)
      (by norm_num)⟩

/-! ## Claim C7 -/

/-- The future-profitability value exactly as claim C7 words it, for
comparison with the engine: income projected from current revenue at the
(claimed) margin, compounded at the decayed schedule rate, five years
discounted at 12% plus a 2.5% Gordon terminal value. -/
def claimC7Value (rev rg target : ℚ) : ℚ :=
  let ag := decayedGrowthSchedule rg
  let income := rev * target
  income * (1 + ag) ^ 1 / (1 + 12/100) ^ 1 +
  income * (1 + ag) ^ 2 / (1 + 12/100) ^ 2 +
  income * (1 + ag) ^ 3 / (1 + 12/100) ^ 3 +
  income * (1 + ag) ^ 4 / (1 + 12/100) ^ 4 +
  income * (1 + ag) ^ 5 / (1 + 12/100) ^ 5 +
  income * (1 + ag) ^ 5 * (1 + 25/1000) / ((12/100 - 25/1000) * (1 + 12/100) ^ 5)

/-- C7 (counterexample): for an unprofitable input with positive revenue
(revenue 1, growth 35%, current net income 0), the engine does not use
the claimed decay schedule: it compounds at 0.5 x growth = 17.5% (not
20%) and offsets the discounting by years_to_profitability, so its
future-profitability value differs from the claimed formula. -/
theorem claim_C7_counterexample :
    0 < (1 : ℚ) ∧
    (calculate_revenue_based_valuation 1 (7/20) "default" 0 3 (1/10)
        0 0).revenue_value_dcf ≠ claimC7Value 1 (7/20) (1/10) := by
  refine ⟨by norm_num, ?_⟩
  norm_num [calculate_revenue_based_valuation, claimC7Value, decayedGrowthSchedule,
    show List.range 5 = [0, 1, 2, 3, 4] from rfl]

/-- C7 (amended): for every *already-profitable* input (positive revenue,
net income and net margin), the future-profitability method compounds the
projected income `rev * effective_margin` at the decayed growth rate
(20% when growth > 30%, 15% when growth > 20%, else min(0.6 x growth, 8%))
and discounts five years of it plus a Gordon terminal value at the fixed
12% discount rate with 2.5% terminal growth; for unprofitable inputs the
engine instead uses 0.5 x growth and discounts with a
years-to-profitability offset. -/
theorem claim_C7_amended :
    ∀ rev rg : ℚ, ∀ ind : String, ∀ mc : ℚ, ∀ ytp : ℕ, ∀ tpm ni nm : ℚ,
      0 < rev → 0 < ni → 0 < nm →
      ((30/100 < rg → decayedGrowthSchedule rg = 20/100) ∧
       (rg ≤ 30/100 → 20/100 < rg → decayedGrowthSchedule rg = 15/100) ∧
       (rg ≤ 20/100 → decayedGrowthSchedule rg = min (rg * (6/10)) (8/100))) ∧
      (calculate_revenue_based_valuation rev rg ind mc ytp tpm ni
          nm).revenue_value_dcf =
        rev * effectiveMarginProfitable nm rg tpm *
            (1 + decayedGrowthSchedule rg) ^ 1 / (1 + 12/100) ^ 1 +
        rev * effectiveMarginProfitable nm rg tpm *
            (1 + decayedGrowthSchedule rg) ^ 2 / (1 + 12/100) ^ 2 +
        rev * effectiveMarginProfitable nm rg tpm *
            (1 + decayedGrowthSchedule rg) ^ 3 / (1 + 12/100) ^ 3 +
        rev * effectiveMarginProfitable nm rg tpm *
            (1 + decayedGrowthSchedule rg) ^ 4 / (1 + 12/100) ^ 4 +
        rev * effectiveMarginProfitable nm rg tpm *
            (1 + decayedGrowthSchedule rg) ^ 5 / (1 + 12/100) ^ 5 +
        rev * effectiveMarginProfitable nm rg tpm *
            (1 + decayedGrowthSchedule rg) ^ 5 * (1 + 25/1000) /
            ((12/100 - 25/1000) * (1 + 12/100) ^ 5) := by
  intro rev rg ind mc ytp tpm ni nm hrev hni hnm
  constructor
  · refine ⟨?_, ?_, ?_⟩
    · intro h
      unfold decayedGrowthSchedule
      rw [if_pos h]
    · intro h1 h2
      unfold decayedGrowthSchedule
      rw [if_neg (not_lt.mpr h1), if_pos h2]
    · intro h
      unfold decayedGrowthSchedule
      rw [if_neg (by intro hc; linarith), if_neg (not_lt.mpr h)]
  · simp only [calculate_revenue_based_valuation, if_neg (not_le.mpr hrev),
      if_pos (And.intro hni hnm)]
    rw [show List.range 5 = [0, 1, 2, 3, 4] from rfl]
    simp only [List.map_cons, List.map_nil, List.sum_cons, List.sum_nil]
    norm_num
    ring

/-- C7 (witness): the amended statement at a profitable input with 25%
revenue growth. -/
theorem claim_C7_witness :
    ((30/100 < (1/4 : ℚ) → decayedGrowthSchedule (1/4) = 20/100) ∧
     ((1/4 : ℚ) ≤ 30/100 → 20/100 < (1/4 : ℚ) → decayedGrowthSchedule (1/4) = 15/100) ∧
     ((1/4 : ℚ) ≤ 20/100 → decayedGrowthSchedule (1/4) = min ((1/4) * (6/10)) (8/100))) ∧
    (calculate_revenue_based_valuation 1 (1/4) "default" 0 3 (1/10) (1/10)
        (1/10)).revenue_value_dcf =
      1 * effectiveMarginProfitable (1/10) (1/4) (1/10) *
          (1 + decayedGrowthSchedule (1/4)) ^ 1 / (1 + 12/100) ^ 1 +
      1 * effectiveMarginProfitable (1/10) (1/4) (1/10) *
          (1 + decayedGrowthSchedule (1/4)) ^ 2 / (1 + 12/100) ^ 2 +
      1 * effectiveMarginProfitable (1/10) (1/4) (1/10) *
          (1 + decayedGrowthSchedule (1/4)) ^ 3 / (1 + 12/100) ^ 3 +
      1 * effectiveMarginProfitable (1/10) (1/4) (1/10) *
          (1 + decayedGrowthSchedule (1/4)) ^ 4 / (1 + 12/100) ^ 4 +
      1 * effectiveMarginProfitable (1/10) (1/4) (1/10) *
          (1 + decayedGrowthSchedule (1/4)) ^ 5 / (1 + 12/100) ^ 5 +
      1 * effectiveMarginProfitable (1/10) (1/4) (1/10) *
          (1 + decayedGrowthSchedule (1/4)) ^ 5 * (1 + 25/1000) /
          ((12/100 - 25/1000) * (1 + 12/100) ^ 5) :=
  claim_C7_amended 1 (1/4) "default" 0 3 (1/10) (1/10) (1/10)
    (by norm_num) (by norm_num) (by norm_num)

/-! ## Claim C8: monotonicity of the three-stage DCF in the high growth rate -/

lemma stage1Go_fst (g r : ℚ) :
    ∀ (n year : ℕ) (base : ℚ), (stage1Go g r n year base).1 = base * (1 + g) ^ n := by
  intro n
  induction n with
  | zero => intro year base; simp [stage1Go]
  | succ k ih =>
    intro year base
    simp only [stage1Go, ih]
    ring

lemma stage1Go_snd_mono (g1 g2 r : ℚ) (hg0 : 0 ≤ 1 + g1) (hg : g1 ≤ g2)
    (hr : 0 < 1 + r) :
    ∀ (n year : ℕ) (b1 b2 : ℚ), 0 ≤ b1 → b1 ≤ b2 →
      (stage1Go g1 r n year b1).2 ≤ (stage1Go g2 r n year b2).2 := by
  intro n
  induction n with
  | zero => intro year b1 b2 hb0 hb; simp [stage1Go]
  | succ k ih =>
    intro year b1 b2 hb0 hb
    simp only [stage1Go]
    have hmul : b1 * (1 + g1) ≤ b2 * (1 + g2) :=
      mul_le_mul hb (by linarith) hg0 (le_trans hb0 hb)
    have hmul0 : 0 ≤ b1 * (1 + g1) := mul_nonneg hb0 hg0
    refine add_le_add ?_ (ih (year + 1) _ _ hmul0 hmul)
    exact (div_le_div_right (pow_pos hr year)).mpr hmul

/-- The growth rate the stage-2 loop holds with `n` of `N2` years left,
when it starts at transition rate `T` and declines toward `t` without
ever hitting the floor (which is the case whenever `t ≤ T`). -/
def cgAt (T t : ℚ) (N2 n : ℕ) : ℚ :=
  ((n : ℚ) * T + ((N2 : ℚ) - (n : ℚ)) * t) / (N2 : ℚ)

lemma cgAt_top (T t : ℚ) (N2 : ℕ) (h : 0 < N2) : cgAt T t N2 N2 = T := by
  have hN : ((N2 : ℚ)) ≠ 0 := Nat.cast_ne_zero.mpr h.ne'
  unfold cgAt
  field_simp

lemma cgAt_ge (t T : ℚ) (hT : t ≤ T) (N2 n : ℕ) (hn : n ≤ N2) (hN : 0 < N2) :
    t ≤ cgAt T t N2 n := by
  have hN' : (0 : ℚ) < (N2 : ℚ) := Nat.cast_pos.mpr hN
  have hkey : cgAt T t N2 n - t = (n : ℚ) * (T - t) / (N2 : ℚ) := by
    unfold cgAt
    field_simp
    ring
  have hnn : 0 ≤ (n : ℚ) * (T - t) / (N2 : ℚ) :=
    div_nonneg (mul_nonneg (Nat.cast_nonneg n) (by linarith)) hN'.le
  linarith [hkey, hnn]

lemma cgAt_mono (t T1 T2 : ℚ) (h : T1 ≤ T2) (N2 n : ℕ) (hN : 0 < N2) :
    cgAt T1 t N2 n ≤ cgAt T2 t N2 n := by
  have hN' : (0 : ℚ) < (N2 : ℚ) := Nat.cast_pos.mpr hN
  unfold cgAt
  refine (div_le_div_right hN').mpr ?_
  have := mul_le_mul_of_nonneg_left h (@Nat.cast_nonneg ℚ _ n)
  linarith

lemma cgAt_step (t T : ℚ) (hT : t ≤ T) (N2 n : ℕ) (hn : n + 1 ≤ N2) (hN : 0 < N2) :
    max (cgAt T t N2 (n + 1) - (T - t) / (N2 : ℚ)) t = cgAt T t N2 n := by
  have hN' : ((N2 : ℚ)) ≠ 0 := Nat.cast_ne_zero.mpr hN.ne'
  have hkey : cgAt T t N2 (n + 1) - (T - t) / (N2 : ℚ) = cgAt T t N2 n := by
    unfold cgAt
    field_simp
    push_cast
    ring
  rw [hkey]
  exact max_eq_left (cgAt_ge t T hT N2 n (by omega) hN)

lemma stage2Go_snd_fst_mono (r t T1 T2 : ℚ) (ht : 0 ≤ t) (hr : 0 < 1 + r)
    (hT1 : t ≤ T1) (hT : T1 ≤ T2) (N2 : ℕ) (hN : 0 < N2) :
    ∀ (n : ℕ), n ≤ N2 → ∀ (year : ℕ) (b1 b2 : ℚ), 0 ≤ b1 → b1 ≤ b2 →
      (stage2Go r t ((T1 - t) / (N2 : ℚ)) n year b1 (cgAt T1 t N2 n)).1 ≤
        (stage2Go r t ((T2 - t) / (N2 : ℚ)) n year b2 (cgAt T2 t N2 n)).1 ∧
      (stage2Go r t ((T1 - t) / (N2 : ℚ)) n year b1 (cgAt T1 t N2 n)).2 ≤
        (stage2Go r t ((T2 - t) / (N2 : ℚ)) n year b2 (cgAt T2 t N2 n)).2 := by
  intro n
  induction n with
  | zero =>
    intro hn year b1 b2 hb0 hb
    constructor
    · simpa [stage2Go] using hb
    · simp [stage2Go]
  | succ k ih =>
    intro hk year b1 b2 hb0 hb
    have hcgt : t ≤ cgAt T1 t N2 (k + 1) := cgAt_ge t T1 hT1 N2 (k + 1) hk hN
    have hcgm : cgAt T1 t N2 (k + 1) ≤ cgAt T2 t N2 (k + 1) := cgAt_mono t T1 T2 hT N2 (k + 1) hN
    have hmul0 : 0 ≤ b1 * (1 + cgAt T1 t N2 (k + 1)) := mul_nonneg hb0 (by linarith)
    have hmul : b1 * (1 + cgAt T1 t N2 (k + 1)) ≤ b2 * (1 + cgAt T2 t N2 (k + 1)) :=
      mul_le_mul hb (by linarith) (by linarith) (le_trans hb0 hb)
    have hstep1 := cgAt_step t T1 hT1 N2 k hk hN
    have hstep2 := cgAt_step t T2 (le_trans hT1 hT) N2 k hk hN
    obtain ⟨ihf, ihs⟩ := ih (by omega) (year + 1) _ _ hmul0 hmul
    constructor
    · simp only [stage2Go]
      rw [hstep1, hstep2]
      exact ihf
    · simp only [stage2Go]
      rw [hstep1, hstep2]
      exact add_le_add ((div_le_div_right (pow_pos hr year)).mpr hmul) ihs

lemma stage2Go_fst_strict (r t T1 T2 : ℚ) (ht : 0 ≤ t)
    (hT1 : t ≤ T1) (hT : T1 ≤ T2) (N2 : ℕ) (hN : 0 < N2) :
    ∀ (n : ℕ), n ≤ N2 → ∀ (year : ℕ) (b1 b2 : ℚ), 0 < b1 → b1 < b2 →
      (stage2Go r t ((T1 - t) / (N2 : ℚ)) n year b1 (cgAt T1 t N2 n)).1 <
        (stage2Go r t ((T2 - t) / (N2 : ℚ)) n year b2 (cgAt T2 t N2 n)).1 := by
  intro n
  induction n with
  | zero =>
    intro hn year b1 b2 hb0 hb
    simpa [stage2Go] using hb
  | succ k ih =>
    intro hk year b1 b2 hb0 hb
    have hcgt : t ≤ cgAt T1 t N2 (k + 1) := cgAt_ge t T1 hT1 N2 (k + 1) hk hN
    have hcgm : cgAt T1 t N2 (k + 1) ≤ cgAt T2 t N2 (k + 1) := cgAt_mono t T1 T2 hT N2 (k + 1) hN
    have hmul0 : 0 < b1 * (1 + cgAt T1 t N2 (k + 1)) := mul_pos hb0 (by linarith)
    have hmul : b1 * (1 + cgAt T1 t N2 (k + 1)) < b2 * (1 + cgAt T2 t N2 (k + 1)) :=
      mul_lt_mul hb (by linarith) (by linarith) (le_of_lt (lt_trans hb0 hb))
    have hstep1 := cgAt_step t T1 hT1 N2 k hk hN
    have hstep2 := cgAt_step t T2 (le_trans hT1 hT) N2 k hk hN
    have ihf := ih (by omega) (year + 1) _ _ hmul0 hmul
    simp only [stage2Go]
    rw [hstep1, hstep2]
    exact ihf

lemma stage2Go_entry_mono (r t T1 T2 : ℚ) (ht : 0 ≤ t) (hr : 0 < 1 + r)
    (hT1 : t ≤ T1) (hT : T1 ≤ T2) (N2 : ℕ) (hN : 0 < N2)
    (year : ℕ) (b1 b2 : ℚ) (hb0 : 0 ≤ b1) (hb : b1 ≤ b2) :
    (stage2Go r t ((T1 - t) / (N2 : ℚ)) N2 year b1 T1).1 ≤
      (stage2Go r t ((T2 - t) / (N2 : ℚ)) N2 year b2 T2).1 ∧
    (stage2Go r t ((T1 - t) / (N2 : ℚ)) N2 year b1 T1).2 ≤
      (stage2Go r t ((T2 - t) / (N2 : ℚ)) N2 year b2 T2).2 := by
  have h := stage2Go_snd_fst_mono r t T1 T2 ht hr hT1 hT N2 hN N2 (le_refl N2)
    year b1 b2 hb0 hb
  rwa [cgAt_top T1 t N2 hN, cgAt_top T2 t N2 hN] at h

lemma stage2Go_entry_strict (r t T1 T2 : ℚ) (ht : 0 ≤ t)
    (hT1 : t ≤ T1) (hT : T1 ≤ T2) (N2 : ℕ) (hN : 0 < N2)
    (year : ℕ) (b1 b2 : ℚ) (hb0 : 0 < b1) (hb : b1 < b2) :
    (stage2Go r t ((T1 - t) / (N2 : ℚ)) N2 year b1 T1).1 <
      (stage2Go r t ((T2 - t) / (N2 : ℚ)) N2 year b2 T2).1 := by
  have h := stage2Go_fst_strict r t T1 T2 ht hT1 hT N2 hN N2 (le_refl N2)
    year b1 b2 hb0 hb
  rwa [cgAt_top T1 t N2 hN, cgAt_top T2 t N2 hN] at h

lemma dcf_ev_unfold (fcf hg tr t w : ℚ) (N1 N2 : ℕ) (debt cash sh : ℚ)
    (hf : 0 < fcf) (hw : ¬ w ≤ t) (hN2 : N2 ≠ 0) :
    (calculate_three_stage_dcf fcf hg tr t w N1 N2 debt cash sh).enterprise_value =
      (stage1Go hg w N1 1 fcf).2 +
      (stage2Go w t ((tr - t) / (N2 : ℚ)) N2 (N1 + 1)
        ((stage1Go hg w N1 1 fcf).1) tr).2 +
      ((stage2Go w t ((tr - t) / (N2 : ℚ)) N2 (N1 + 1)
          ((stage1Go hg w N1 1 fcf).1) tr).1 * (1 + t) / (w - t)) /
        (1 + w) ^ (N1 + N2) := by
  simp only [calculate_three_stage_dcf, if_neg (not_le.mpr hf), if_neg hw, if_neg hN2]

/-- C8 (counterexample): with fcf 1, wacc 10% > terminal 2.5% and the
transition rate tied to 0.7 x growth, the enterprise value at growth -200%
exceeds the enterprise value at growth -100% (which is 0), so the DCF
value is not strictly increasing in the high growth rate in general. -/
theorem claim_C8_counterexample :
    (-2 : ℚ) < -1 ∧ (0 : ℚ) < 1 ∧ (1/40 : ℚ) < 1/10 ∧
    (calculate_three_stage_dcf 1 (-1) ((7/10) * -1) (1/40) (1/10)
        5 5 0 0 0).enterprise_value <
      (calculate_three_stage_dcf 1 (-2) ((7/10) * -2) (1/40) (1/10)
        5 5 0 0 0).enterprise_value := by
  refine ⟨by norm_num, by norm_num, by norm_num, ?_⟩
  norm_num [calculate_three_stage_dcf, stage1Go, stage2Go]

/-- C8 (amended): for fixed wacc, terminal rate, stage lengths (at least
one year each), debt, cash and positive initial FCF, with
0 <= terminal < wacc and the transition rate derived as 0.7 x growth, the
enterprise value is strictly increasing in the high growth rate on the
domain where terminal <= 0.7 x growth (the floor of the stage-2 decline
never binds there); outside this domain, with degenerate negative growth
rates, monotonicity fails. -/
theorem claim_C8_amended :
    ∀ fcf w t g1 g2 debt cash sh : ℚ, ∀ N1 N2 : ℕ,
      0 < fcf → 0 ≤ t → t < w → t ≤ (7/10) * g1 → g1 < g2 → 1 ≤ N1 → 1 ≤ N2 →
      (calculate_three_stage_dcf fcf g1 ((7/10) * g1) t w N1 N2
          debt cash sh).enterprise_value <
        (calculate_three_stage_dcf fcf g2 ((7/10) * g2) t w N1 N2
          debt cash sh).enterprise_value := by
  intro fcf w t g1 g2 debt cash sh N1 N2 hf ht hw hT hg hN1 hN2
  have hg10 : 0 ≤ g1 := by linarith
  have hg11 : (0 : ℚ) ≤ 1 + g1 := by linarith
  have hr : (0 : ℚ) < 1 + w := by linarith
  have hN2pos : 0 < N2 := hN2
  rw [dcf_ev_unfold fcf g1 ((7/10) * g1) t w N1 N2 debt cash sh hf (not_le.mpr hw)
      (by omega),
    dcf_ev_unfold fcf g2 ((7/10) * g2) t w N1 N2 debt cash sh hf (not_le.mpr hw)
      (by omega)]
  have hfst1 : (stage1Go g1 w N1 1 fcf).1 = fcf * (1 + g1) ^ N1 := stage1Go_fst g1 w N1 1 fcf
  have hfst2 : (stage1Go g2 w N1 1 fcf).1 = fcf * (1 + g2) ^ N1 := stage1Go_fst g2 w N1 1 fcf
  have hfin : fcf * (1 + g1) ^ N1 < fcf * (1 + g2) ^ N1 := by
    have hpow : (1 + g1) ^ N1 < (1 + g2) ^ N1 :=
      pow_lt_pow_left (by linarith) hg11 (by omega)
    exact mul_lt_mul_of_pos_left hpow hf
  have hfpos : 0 < fcf * (1 + g1) ^ N1 := mul_pos hf (pow_pos (by linarith) N1)
  have hs1 : (stage1Go g1 w N1 1 fcf).2 ≤ (stage1Go g2 w N1 1 fcf).2 :=
    stage1Go_snd_mono g1 g2 w hg11 hg.le hr N1 1 fcf fcf (le_of_lt hf) (le_refl fcf)
  rw [hfst1, hfst2]
  have hT2 : (7/10) * g1 ≤ (7/10) * g2 := by linarith
  have hs2 := stage2Go_entry_mono w t ((7/10) * g1) ((7/10) * g2) ht hr hT hT2 N2
    hN2pos (N1 + 1) (fcf * (1 + g1) ^ N1) (fcf * (1 + g2) ^ N1) hfpos.le hfin.le
  have hs2f := stage2Go_entry_strict w t ((7/10) * g1) ((7/10) * g2) ht hT hT2 N2
    hN2pos (N1 + 1) (fcf * (1 + g1) ^ N1) (fcf * (1 + g2) ^ N1) hfpos hfin
  have hterm1 :
      (stage2Go w t (((7/10) * g1 - t) / (N2 : ℚ)) N2 (N1 + 1)
          (fcf * (1 + g1) ^ N1) ((7/10) * g1)).1 * (1 + t) <
      (stage2Go w t (((7/10) * g2 - t) / (N2 : ℚ)) N2 (N1 + 1)
          (fcf * (1 + g2) ^ N1) ((7/10) * g2)).1 * (1 + t) :=
    mul_lt_mul_of_pos_right hs2f (by linarith)
  have hterm2 := (div_lt_div_right (show (0 : ℚ) < w - t by linarith)).mpr hterm1
  have hterm3 := (div_lt_div_right (pow_pos hr (N1 + N2))).mpr hterm2
  linarith [hs2.2, hterm3]

/-- C8 (witness): the amended monotonicity at growth rates 10% < 20%
with wacc 10%, terminal 2.5%, five-year stages. -/
theorem claim_C8_witness :
    (0 : ℚ) < 1 ∧ (0 : ℚ) ≤ 1/40 ∧ (1/40 : ℚ) < 1/10 ∧
    (1/40 : ℚ) ≤ (7/10) * (1/10) ∧ (1/10 : ℚ) < 1/5 ∧
    (calculate_three_stage_dcf 1 (1/10) ((7/10) * (1/10)) (1/40) (1/10)
        5 5 0 0 0).enterprise_value <
      (calculate_three_stage_dcf 1 (1/5) ((7/10) * (1/5)) (1/40) (1/10)
        5 5 0 0 0).enterprise_value :=
  ⟨by norm_num, by norm_num, by norm_num, by norm_num, by norm_num,
    claim_C8_amended 1 (1/10) (1/40) (1/10) (1/5) 0 0 0 5 5 (by norm_num)
      (by norm_num) (by norm_num) (by norm_num) (by norm_num) (by norm_num)
      (by norm_num)⟩
